import Mathlib

/-!
Shallow embedding of `autometrics-rs`:
* `autometrics-macros/src/parse.rs` — the attribute-argument parser (`Args`,
  `Alerts`, `Latency`, `IntOrFloat`), embedded as recursive-descent functions
  over a token list mirroring the `syn`/`proc_macro2` token stream.
* `autometrics/src/tracker/opentelemetry.rs` — the `OpenTelemetryTracker`,
  embedded as pure functions returning the list of metric emissions
  (counter adds, histogram records, gauge adds) each call performs.
-/

namespace Autometrics

/-- A token of the attribute-argument stream as `syn` sees it in
`autometrics-macros/src/parse.rs`: the custom keywords declared in `mod kw`,
punctuation, one parenthesized token tree (`group`), numeric literals carrying
their lexical suffix (`200ms` is a single integer literal with suffix `"ms"`),
and an opaque `expr` token standing for an arbitrary Rust expression consumed
by `syn::Expr::parse` (identified by a numeric id, since the parser never
inspects the expression itself). -/
inductive Tok where
  | kwTrackConcurrency
  | kwOkIf
  | kwErrorIf
  | kwAlerts
  | kwSuccessRate
  | kwLatency
  | comma
  | eq
  | percent
  | lt
  | le
  | group (content : List Tok)
  | litInt (value : Nat) (suffix : String)
  | litFloat (mantissa : Nat) (scale : Nat) (suffix : String)
  | expr (e : Nat)

/-- The type `rust_decimal::Decimal` models exact decimal arithmetic; the only
operations the parser performs are divisions by `100` and `1000`, which are
exact in `rust_decimal` for the literal scales involved, so we model values
as rationals. -/
abbrev Decimal := Rat

/-- The alerts module's `enum Unit { Seconds, Milliseconds }`; named
`TimeUnit` here because `Unit` is taken in Lean. -/
inductive TimeUnit where
  | seconds
  | milliseconds
deriving DecidableEq

/-- The `lookahead.error()` message produced inside `IntOrFloat::parse`
(`parse.rs` lines 200-221): used both when the next token is not an
int/float literal and when the literal's suffix is unrecognized
(the source reuses the same `lookahead` object for both). -/
def intOrFloatLookaheadMsg : String :=
  "expected integer literal or floating point literal"

/-- The `lookahead.error()` message of the `Args::parse` loop. -/
def argsLookaheadMsg : String :=
  "expected one of: `track_concurrency`, `ok_if`, `error_if`, `alerts`, `,`"

/-- The `lookahead.error()` message of the `Alerts::parse` loop. -/
def alertsLookaheadMsg : String :=
  "expected one of: `success_rate`, `latency`, `,`"

/-- The `lookahead.error()` message of the comparator dispatch in
`Latency::parse` (lines 166-175). -/
def cmpLookaheadMsg : String := "expected one of: `<=`, `<`, `=`"

/-- Error of a failed `input.parse::<Token![=]>()`. -/
def eqExpectedMsg : String := "expected `=`"

/-- Error of a failed `content.parse::<Token![%]>()`. -/
def percentExpectedMsg : String := "expected `%`"

/-- Error of a failed `input.parse::<Expr>()`. -/
def exprExpectedMsg : String := "expected expression"

/-- Error of a failed `parenthesized!` invocation. -/
def parensExpectedMsg : String := "expected parentheses"

/-- Error used when `syn` reports tokens left unconsumed inside a parsed parenthesized group
as an `unexpected token` error at the end of the parse. -/
def unexpectedTokenMsg : String := "unexpected token"

/-- Decoding of a literal's lexical suffix inside `IntOrFloat::parse`
(lines 213-218): `""` means no unit, `"ms"`/`"s"` the two units, anything
else is rejected (`none` here; the source returns `Err(lookahead.error())`). -/
def suffixToUnit (suffix : String) : Option (Option TimeUnit) :=
  if suffix = "" then some none
  else if suffix = "ms" then some (some TimeUnit.milliseconds)
  else if suffix = "s" then some (some TimeUnit.seconds)
  else none

/-- Numeric value of a `LitInt`/`LitFloat` token together with its decoded
unit, or the `IntOrFloat::parse` lookahead error. `base10_parse::<Decimal>`
on a float literal `m.f` yields `mantissa / 10^scale`. -/
def parseLit1 (t : Tok) : Except String (Decimal × Option TimeUnit) :=
  match t with
  | Tok.litInt value suffix =>
    match suffixToUnit suffix with
    | some u => Except.ok ((value : Decimal), u)
    | none => Except.error intOrFloatLookaheadMsg
  | Tok.litFloat mantissa scale suffix =>
    match suffixToUnit suffix with
    | some u => Except.ok ((mantissa : Decimal) / (10 : Decimal) ^ scale, u)
    | none => Except.error intOrFloatLookaheadMsg
  | _ => Except.error intOrFloatLookaheadMsg

/-- Embedding of `IntOrFloat::parse` (lines 200-221): consumes exactly one literal token
from the stream and decodes its suffix into an optional time unit. -/
def parseIntOrFloat : List Tok → Except String ((Decimal × Option TimeUnit) × List Tok)
  | [] => Except.error intOrFloatLookaheadMsg
  | t :: rest => (parseLit1 t).map (fun v => (v, rest))

/-- The comparator dispatch of `Latency::parse` (lines 166-175): one of
`<=`, `<`, `=` is consumed and discarded; nothing else is accepted. -/
def parseLatencyCmp : List Tok → Except String (List Tok)
  | Tok.le :: rest => Except.ok rest
  | Tok.lt :: rest => Except.ok rest
  | Tok.eq :: rest => Except.ok rest
  | _ => Except.error cmpLookaheadMsg

/-- The parsed `Latency` struct: `{ target_seconds, percentile }`. -/
structure Latency where
  target_seconds : Decimal
  percentile : Decimal
deriving DecidableEq

/-- Final step of `Latency::parse`: the parenthesized content must be fully
consumed (leftover tokens inside the group surface as `syn`'s
`unexpected token` error). -/
def latencyDone (percentile target_seconds : Decimal) : List Tok → Except String Latency
  | [] => Except.ok { target_seconds := target_seconds, percentile := percentile }
  | _ => Except.error unexpectedTokenMsg

/-- Body of `Latency::parse` (lines 156-189) applied to the parenthesized
content: percentile literal (divided by 100, its unit ignored via `.0`),
`%`, a comparator, then the target literal whose unit must be `s`
(kept as-is) or `ms` (divided by 1000); a missing unit yields the
`expected unit of time (s or ms)` error. -/
def parseLatencyContent (content : List Tok) : Except String Latency :=
  match parseIntOrFloat content with
  | Except.error e => Except.error e
  | Except.ok ((p, _), rest1) =>
    let percentile := p / (100 : Decimal)
    match rest1 with
    | Tok.percent :: rest2 =>
      match parseLatencyCmp rest2 with
      | Except.error e => Except.error e
      | Except.ok rest3 =>
        match parseIntOrFloat rest3 with
        | Except.error e => Except.error e
        | Except.ok ((target_seconds, unit), rest4) =>
          match unit with
          | some TimeUnit.seconds => latencyDone percentile target_seconds rest4
          | some TimeUnit.milliseconds =>
              latencyDone percentile (target_seconds / (1000 : Decimal)) rest4
          | none => Except.error "expected unit of time (s or ms)"
    | _ => Except.error percentExpectedMsg

/-- Embedding of `Latency::parse` seen from the enclosing stream: consumes the `latency`
keyword and its parenthesized group. -/
def parseLatencyToks : List Tok → Except String (Latency × List Tok)
  | Tok.kwLatency :: Tok.group content :: rest =>
    (parseLatencyContent content).map (fun l => (l, rest))
  | Tok.kwLatency :: _ => Except.error parensExpectedMsg
  | _ => Except.error parensExpectedMsg

/-- The parsed `Alerts` struct: `{ success_rate, latency }`, both optional. -/
structure Alerts where
  success_rate : Option Decimal := none
  latency : Option Latency := none
deriving DecidableEq

/-- The `Alerts::parse` loop (lines 125-143) over the parenthesized content:
`success_rate = <lit> %` stores the literal divided by 100 (its unit, if any,
is discarded by the source's `.0`), `latency(...)` stores a parsed `Latency`,
commas are skipped; there is no duplicate check, so a repeated entry
overwrites the previous one. -/
def parseAlertsLoop : Alerts → List Tok → Except String Alerts
  | alerts, [] => Except.ok alerts
  | alerts, Tok.kwSuccessRate :: Tok.eq :: t :: Tok.percent :: rest =>
    (match parseLit1 t with
     | Except.ok (v, _) =>
       parseAlertsLoop { alerts with success_rate := some (v / (100 : Decimal)) } rest
     | Except.error e => Except.error e)
  | _, Tok.kwSuccessRate :: Tok.eq :: t :: _ =>
    (match parseLit1 t with
     | Except.ok _ => Except.error percentExpectedMsg
     | Except.error e => Except.error e)
  | _, Tok.kwSuccessRate :: Tok.eq :: [] => Except.error intOrFloatLookaheadMsg
  | _, Tok.kwSuccessRate :: _ => Except.error eqExpectedMsg
  | alerts, Tok.kwLatency :: Tok.group content :: rest =>
    (match parseLatencyContent content with
     | Except.ok l => parseAlertsLoop { alerts with latency := some l } rest
     | Except.error e => Except.error e)
  | _, Tok.kwLatency :: _ => Except.error parensExpectedMsg
  | alerts, Tok.comma :: rest => parseAlertsLoop alerts rest
  | _, _ => Except.error alertsLookaheadMsg

/-- Embedding of `Alerts::parse` (lines 119-146): expects one parenthesized group and runs
the entry loop over its content (the loop runs until the content is empty). -/
def parseAlertsToks : List Tok → Except String (Alerts × List Tok)
  | Tok.group content :: rest =>
    (parseAlertsLoop {} content).map (fun a => (a, rest))
  | _ => Except.error parensExpectedMsg

/-- The parsed `Args` struct (`parse.rs` lines 22-30); `ok_if`/`error_if`
hold the opaque expression ids of the `expr` tokens. The `alerts` field is
present because we model the `alerts` cargo feature as enabled (the
`cfg(not(feature))` branch turns any use of `alerts` into a hard error and
is not exercised by the claims). -/
structure Args where
  track_concurrency : Bool := false
  ok_if : Option Nat := none
  error_if : Option Nat := none
  alerts : Option Alerts := none
deriving DecidableEq

/-- The `Args::parse` loop (lines 41-86): one-token lookahead dispatch on
`track_concurrency`, `ok_if`, `error_if`, `alerts` and `,`; duplicate
`ok_if`/`error_if` and mixed `ok_if`+`error_if` are rejected with the
source's messages; `ok_if`/`error_if` are followed by `=` and an expression
(`ExprArg::parse`, lines 93-103); `alerts` is followed by a parenthesized
group parsed by the alerts loop. -/
def parseArgsLoop : Args → List Tok → Except String Args
  | args, [] => Except.ok args
  | args, Tok.kwTrackConcurrency :: rest =>
    parseArgsLoop { args with track_concurrency := true } rest
  | args, Tok.kwOkIf :: rest =>
    if args.ok_if.isSome then
      Except.error "expected only a single `ok_if` argument"
    else if args.error_if.isSome then
      Except.error "cannot use both `ok_if` and `error_if`"
    else
      match rest with
      | Tok.eq :: Tok.expr e :: rest2 =>
        parseArgsLoop { args with ok_if := some e } rest2
      | Tok.eq :: _ => Except.error exprExpectedMsg
      | _ => Except.error eqExpectedMsg
  | args, Tok.kwErrorIf :: rest =>
    if args.error_if.isSome then
      Except.error "expected only a single `error_if` argument"
    else if args.ok_if.isSome then
      Except.error "cannot use both `ok_if` and `error_if`"
    else
      match rest with
      | Tok.eq :: Tok.expr e :: rest2 =>
        parseArgsLoop { args with error_if := some e } rest2
      | Tok.eq :: _ => Except.error exprExpectedMsg
      | _ => Except.error eqExpectedMsg
  | args, Tok.kwAlerts :: Tok.group content :: rest =>
    (match parseAlertsLoop {} content with
     | Except.ok a => parseArgsLoop { args with alerts := some a } rest
     | Except.error e => Except.error e)
  | _, Tok.kwAlerts :: _ => Except.error parensExpectedMsg
  | args, Tok.comma :: rest => parseArgsLoop args rest
  | _, _ => Except.error argsLookaheadMsg

/-- Embedding of `Args::parse`, the macro's attribute-argument entry point. -/
def Args.parseToks (input : List Tok) : Except String Args :=
  parseArgsLoop {} input

/-! ## The OpenTelemetry tracker (`autometrics/src/tracker/opentelemetry.rs`) -/

/-- Modelled from the spec: the `FUNCTION_KEY` label key from
`crate::constants` (not under `src/`); spec section 6 fixes the label name
`function`. -/
def FUNCTION_KEY : String := "function"

/-- Modelled from the spec: the `MODULE_KEY` label key from
`crate::constants` (not under `src/`); spec section 6 fixes the label name
`module`. -/
def MODULE_KEY : String := "module"

/-- Modelled from the spec: `COUNTER_NAME` from `crate::constants`
(not under `src/`), the fixed backend-visible name of the call counter. -/
def COUNTER_NAME : String := "function.calls.count"

/-- Modelled from the spec: `HISTOGRAM_NAME` from `crate::constants`
(not under `src/`), the fixed name of the latency histogram. -/
def HISTOGRAM_NAME : String := "function.calls.duration"

/-- Modelled from the spec: `GAUGE_NAME` from `crate::constants`
(not under `src/`), the fixed name of the concurrency up-down counter. -/
def GAUGE_NAME : String := "function.calls.concurrent"

/-- One string label, `opentelemetry_api::KeyValue`. -/
structure KeyValue where
  key : String
  value : String
deriving DecidableEq

/-- A label pair `crate::labels::Label`, i.e. `(&'static str, &'static str)`. -/
abbrev Label := String × String

/-- One metric emission performed against the OpenTelemetry meter: a counter
`add`, a histogram `record`, or an up-down-counter (gauge) `add`. Counter and
histogram amounts are `f64` in the source; every value the tracker feeds them
(the constant `1.0` and an elapsed duration) is modelled as a rational.
The ambient `Context` threaded through every emission carries no label or
metric data and is omitted. -/
inductive MetricEvent where
  | counterAdd (name : String) (amount : Rat) (labels : List KeyValue)
  | histogramRecord (name : String) (sample : Rat) (labels : List KeyValue)
  | gaugeAdd (name : String) (delta : Int) (labels : List KeyValue)
deriving DecidableEq

/-- The `OpenTelemetryTracker` struct. The `Option<UpDownCounter<i64>>`
handle is modelled by the name of the instrument it was registered under
(instrument lookup by name is idempotent, so the name determines the
instrument); the `start: Instant` field is named `start_instant` because
`start` is taken by the constructor below; the `context: Context` field is
omitted (see `MetricEvent`). -/
structure OpenTelemetryTracker where
  module : String
  function : String
  concurrency_tracker : Option String
  function_and_module_labels : List KeyValue
  start_instant : Rat
deriving DecidableEq

/-- Embedding of `OpenTelemetryTracker::start` (opentelemetry.rs lines 23-50): builds the
`{function, module}` label pair, increments the concurrency gauge by 1 with
those labels when `track_concurrency` is set, and captures the start instant
(`Instant::now()` is modelled by the `now` argument). Returns the tracker
together with the list of metric emissions performed. -/
def OpenTelemetryTracker.start (function module : String) (track_concurrency : Bool)
    (now : Rat) : OpenTelemetryTracker × List MetricEvent :=
  let function_and_module_labels : List KeyValue :=
    [{ key := FUNCTION_KEY, value := function }, { key := MODULE_KEY, value := module }]
  let (concurrency_tracker, events) :=
    if track_concurrency then
      (some GAUGE_NAME,
       [MetricEvent.gaugeAdd GAUGE_NAME 1 function_and_module_labels])
    else (none, [])
  ({ module := module, function := function,
     concurrency_tracker := concurrency_tracker,
     function_and_module_labels := function_and_module_labels,
     start_instant := now }, events)

/-- Embedding of `OpenTelemetryTracker::finish` (opentelemetry.rs lines 52-77): consumes
the tracker and emits, in this order, (a) a call-counter increment of 1
tagged with exactly the caller-supplied `counter_labels`, (b) a histogram
record of the elapsed duration tagged with the `{function, module}` labels,
and (c) when a concurrency handle was captured at `start`, a gauge decrement
of 1 with the `{function, module}` labels. -/
def OpenTelemetryTracker.finish (self : OpenTelemetryTracker)
    (counter_labels : List Label) (now : Rat) : List MetricEvent :=
  let duration := now - self.start_instant
  let counter_labels : List KeyValue :=
    counter_labels.map (fun kv => { key := kv.1, value := kv.2 })
  [MetricEvent.counterAdd COUNTER_NAME 1 counter_labels,
   MetricEvent.histogramRecord HISTOGRAM_NAME duration self.function_and_module_labels]
  ++ (match self.concurrency_tracker with
      | some gauge => [MetricEvent.gaugeAdd gauge (-1) self.function_and_module_labels]
      | none => [])

/-- The labels carried by one metric emission. -/
def MetricEvent.labels : MetricEvent → List KeyValue
  | MetricEvent.counterAdd _ _ ls => ls
  | MetricEvent.histogramRecord _ _ ls => ls
  | MetricEvent.gaugeAdd _ _ ls => ls

/-- The gauge emissions of an event list, as (delta, labels) pairs. -/
def gaugeAdds : List MetricEvent → List (Int × List KeyValue)
  | [] => []
  | MetricEvent.gaugeAdd _ d ls :: rest => (d, ls) :: gaugeAdds rest
  | _ :: rest => gaugeAdds rest

/-- The counter emissions of an event list, as (amount, labels) pairs. -/
def counterAdds : List MetricEvent → List (Rat × List KeyValue)
  | [] => []
  | MetricEvent.counterAdd _ a ls :: rest => (a, ls) :: counterAdds rest
  | _ :: rest => counterAdds rest

/-- The histogram emissions of an event list, as (sample, labels) pairs. -/
def histogramRecords : List MetricEvent → List (Rat × List KeyValue)
  | [] => []
  | MetricEvent.histogramRecord _ s ls :: rest => (s, ls) :: histogramRecords rest
  | _ :: rest => histogramRecords rest

/-- Net change applied to gauges by an event list. -/
def gaugeDelta : List MetricEvent → Int
  | [] => 0
  | MetricEvent.gaugeAdd _ d _ :: rest => d + gaugeDelta rest
  | _ :: rest => gaugeDelta rest

/-- An emission carries the `{function, module}` call-site labels. -/
def carriesCallSite (function module : String) (ev : MetricEvent) : Prop :=
  { key := FUNCTION_KEY, value := function } ∈ ev.labels ∧
  { key := MODULE_KEY, value := module } ∈ ev.labels

instance (function module : String) (ev : MetricEvent) :
    Decidable (carriesCallSite function module ev) := by
  unfold carriesCallSite; infer_instance

/-! ## Argument lists as structured values

To state order-independence of `Args::parse` we describe an attribute
argument list as a list of recognized arguments (each optionally followed by
a comma separator) and render it to the token stream the parser consumes. -/

/-- One recognized top-level argument of the attribute. -/
inductive ArgSpec where
  | trackConcurrency
  | okIf (e : Nat)
  | errorIf (e : Nat)
  | alertsArg (content : List Tok)

/-- The keyword (constructor) of an argument, as a tag. -/
def ArgSpec.kind : ArgSpec → Nat
  | ArgSpec.trackConcurrency => 0
  | ArgSpec.okIf _ => 1
  | ArgSpec.errorIf _ => 2
  | ArgSpec.alertsArg _ => 3

/-- Whether the argument is an `ok_if` argument. -/
def ArgSpec.isOkIf : ArgSpec → Bool
  | ArgSpec.okIf _ => true
  | _ => false

/-- Whether the argument is an `error_if` argument. -/
def ArgSpec.isErrorIf : ArgSpec → Bool
  | ArgSpec.errorIf _ => true
  | _ => false

/-- Whether the argument, taken alone, parses: only an `alerts(...)`
argument can fail on its own (when its parenthesized content is rejected
by the alerts sub-grammar). -/
def ArgSpec.entryOk : ArgSpec → Bool
  | ArgSpec.alertsArg c =>
    (match parseAlertsLoop {} c with
     | Except.ok _ => true
     | Except.error _ => false)
  | _ => true

/-- The token rendering of one argument. -/
def ArgSpec.render : ArgSpec → List Tok
  | ArgSpec.trackConcurrency => [Tok.kwTrackConcurrency]
  | ArgSpec.okIf e => [Tok.kwOkIf, Tok.eq, Tok.expr e]
  | ArgSpec.errorIf e => [Tok.kwErrorIf, Tok.eq, Tok.expr e]
  | ArgSpec.alertsArg c => [Tok.kwAlerts, Tok.group c]

/-- Token rendering of an argument list; each argument is optionally
followed by a comma (commas are optional separators). -/
def renderArgs : List (ArgSpec × Bool) → List Tok
  | [] => []
  | (a, withComma) :: rest =>
    a.render ++ (if withComma then [Tok.comma] else []) ++ renderArgs rest

/-- The field update a successfully parsed argument performs on `Args`. -/
def applyArg (args : Args) : ArgSpec → Args
  | ArgSpec.trackConcurrency => { args with track_concurrency := true }
  | ArgSpec.okIf e => { args with ok_if := some e }
  | ArgSpec.errorIf e => { args with error_if := some e }
  | ArgSpec.alertsArg c =>
    (match parseAlertsLoop {} c with
     | Except.ok a => { args with alerts := some a }
     | Except.error _ => args)

/-- A valid argument list with distinct keyword arguments: no keyword occurs
twice, `ok_if` and `error_if` are not both present, and every `alerts(...)`
content is accepted by the alerts sub-grammar. -/
def ValidArgList (l : List ArgSpec) : Prop :=
  l.Pairwise (fun a b => a.kind ≠ b.kind) ∧
  ¬(l.any ArgSpec.isOkIf = true ∧ l.any ArgSpec.isErrorIf = true) ∧
  l.all ArgSpec.entryOk = true

/-! ## Lemmas about the argument-parser loop -/

lemma parseArgsLoop_comma (args : Args) (ts : List Tok) :
    parseArgsLoop args (Tok.comma :: ts) = parseArgsLoop args ts := rfl

lemma parseArgsLoop_trackConcurrency (args : Args) (ts : List Tok) :
    parseArgsLoop args (Tok.kwTrackConcurrency :: ts) =
      parseArgsLoop { args with track_concurrency := true } ts := rfl

lemma parseArgsLoop_okIf (args : Args) (h1 : args.ok_if = none)
    (h2 : args.error_if = none) (e : Nat) (ts : List Tok) :
    parseArgsLoop args (Tok.kwOkIf :: Tok.eq :: Tok.expr e :: ts) =
      parseArgsLoop { args with ok_if := some e } ts := by
  simp [parseArgsLoop, h1, h2]

lemma parseArgsLoop_errorIf (args : Args) (h1 : args.error_if = none)
    (h2 : args.ok_if = none) (e : Nat) (ts : List Tok) :
    parseArgsLoop args (Tok.kwErrorIf :: Tok.eq :: Tok.expr e :: ts) =
      parseArgsLoop { args with error_if := some e } ts := by
  simp [parseArgsLoop, h1, h2]

lemma parseArgsLoop_alerts (args : Args) (c : List Tok) (a : Alerts)
    (h : parseAlertsLoop {} c = Except.ok a) (ts : List Tok) :
    parseArgsLoop args (Tok.kwAlerts :: Tok.group c :: ts) =
      parseArgsLoop { args with alerts := some a } ts := by
  simp [parseArgsLoop, h]

lemma isOkIf_kind {x : ArgSpec} (h : x.isOkIf = true) : x.kind = 1 := by
  cases x <;> simp [ArgSpec.isOkIf, ArgSpec.kind] at h ⊢

lemma isErrorIf_kind {x : ArgSpec} (h : x.isErrorIf = true) : x.kind = 2 := by
  cases x <;> simp [ArgSpec.isErrorIf, ArgSpec.kind] at h ⊢

/-- Parsing the rendering of a valid argument list succeeds and folds the
arguments' field updates over the accumulator, regardless of the optional
comma separators. -/
lemma parseArgsLoop_renderArgs :
    ∀ (l : List (ArgSpec × Bool)) (args : Args),
    ((l.map Prod.fst).Pairwise fun a b => a.kind ≠ b.kind) →
    ¬((l.map Prod.fst).any ArgSpec.isOkIf = true ∧
      (l.map Prod.fst).any ArgSpec.isErrorIf = true) →
    (l.map Prod.fst).all ArgSpec.entryOk = true →
    ((l.map Prod.fst).any ArgSpec.isOkIf = true →
      args.ok_if = none ∧ args.error_if = none) →
    ((l.map Prod.fst).any ArgSpec.isErrorIf = true →
      args.error_if = none ∧ args.ok_if = none) →
    parseArgsLoop args (renderArgs l) =
      Except.ok ((l.map Prod.fst).foldl applyArg args)
  | [], args, _, _, _, _, _ => by simp [renderArgs, parseArgsLoop]
  | (a, b) :: rest, args, hdist, hnb, hal, hok, herr => by
    simp only [List.map_cons, List.pairwise_cons, List.any_cons, List.all_cons,
      Bool.or_eq_true, Bool.and_eq_true, List.foldl_cons] at hdist hnb hal hok herr ⊢
    obtain ⟨hk, hdist'⟩ := hdist
    obtain ⟨hea, hal'⟩ := hal
    cases a with
    | trackConcurrency =>
      simp only [ArgSpec.isOkIf, ArgSpec.isErrorIf, Bool.false_eq_true, false_or]
        at hok herr hnb
      have step := parseArgsLoop_renderArgs rest { args with track_concurrency := true }
        hdist' hnb hal' (fun h => hok h) (fun h => herr h)
      cases b <;>
        simpa [renderArgs, ArgSpec.render, parseArgsLoop_trackConcurrency,
          parseArgsLoop_comma, applyArg] using step
    | okIf e =>
      simp only [ArgSpec.isOkIf, ArgSpec.isErrorIf, Bool.false_eq_true, false_or,
        eq_self_iff_true, true_or, true_and, forall_const] at hok herr hnb
      obtain ⟨hoknone, herrnone⟩ := hok
      have hnoOk : ¬((rest.map Prod.fst).any ArgSpec.isOkIf = true) := by
        intro h
        obtain ⟨x, hx, hxok⟩ := List.any_eq_true.mp h
        exact hk x hx (isOkIf_kind hxok).symm
      have step := parseArgsLoop_renderArgs rest { args with ok_if := some e }
        hdist' (fun h => hnoOk h.1) hal'
        (fun h => absurd h hnoOk) (fun h => absurd h hnb)
      cases b <;>
        (simp only [renderArgs, ArgSpec.render, List.cons_append, List.nil_append,
          List.append_assoc, if_true, if_false]
         rw [parseArgsLoop_okIf args hoknone herrnone]
         simpa [parseArgsLoop_comma, applyArg] using step)
    | errorIf e =>
      simp only [ArgSpec.isOkIf, ArgSpec.isErrorIf, Bool.false_eq_true, false_or,
        eq_self_iff_true, true_or, and_true, forall_const] at hok herr hnb
      obtain ⟨herrnone, hoknone⟩ := herr
      have hnoErr : ¬((rest.map Prod.fst).any ArgSpec.isErrorIf = true) := by
        intro h
        obtain ⟨x, hx, hxok⟩ := List.any_eq_true.mp h
        exact hk x hx (isErrorIf_kind hxok).symm
      have hnoOk : ¬((rest.map Prod.fst).any ArgSpec.isOkIf = true) := fun h => hnb h
      have step := parseArgsLoop_renderArgs rest { args with error_if := some e }
        hdist' (fun h => hnoOk h.1) hal'
        (fun h => absurd h hnoOk) (fun h => absurd h hnoErr)
      cases b <;>
        (simp only [renderArgs, ArgSpec.render, List.cons_append, List.nil_append,
          List.append_assoc, if_true, if_false]
         rw [parseArgsLoop_errorIf args herrnone hoknone]
         simpa [parseArgsLoop_comma, applyArg] using step)
    | alertsArg c =>
      simp only [ArgSpec.isOkIf, ArgSpec.isErrorIf, Bool.false_eq_true, false_or]
        at hok herr hnb
      simp only [ArgSpec.entryOk] at hea
      obtain ⟨al, hal0⟩ : ∃ al, parseAlertsLoop {} c = Except.ok al := by
        cases h : parseAlertsLoop {} c with
        | ok al => exact ⟨al, rfl⟩
        | error e => rw [h] at hea; simp at hea
      have step := parseArgsLoop_renderArgs rest { args with alerts := some al }
        hdist' hnb hal' (fun h => hok h) (fun h => herr h)
      cases b <;>
        (simp only [renderArgs, ArgSpec.render, List.cons_append, List.nil_append,
          List.append_assoc, if_true, if_false]
         rw [parseArgsLoop_alerts args c al hal0]
         simpa [parseArgsLoop_comma, applyArg, hal0] using step)

/-- Field updates of arguments with different keywords commute. -/
lemma applyArg_comm (a b : ArgSpec) (h : a.kind ≠ b.kind) (z : Args) :
    applyArg (applyArg z a) b = applyArg (applyArg z b) a := by
  cases a <;> cases b <;> (try exact absurd rfl h) <;> (try rfl) <;>
    (simp only [applyArg]; split <;> rfl)

/-- Validity of an argument list is invariant under permutation. -/
lemma validArgList_perm {l l' : List ArgSpec} (hperm : l.Perm l')
    (hv : ValidArgList l) : ValidArgList l' := by
  obtain ⟨hdist, hnb, hal⟩ := hv
  refine ⟨(hperm.pairwise_iff ?_).mp hdist, ?_, ?_⟩
  · intro x y hxy
    exact Ne.symm hxy
  · intro ⟨h1, h2⟩
    apply hnb
    constructor
    · obtain ⟨x, hx, hxp⟩ := List.any_eq_true.mp h1
      exact List.any_eq_true.mpr ⟨x, hperm.mem_iff.mpr hx, hxp⟩
    · obtain ⟨x, hx, hxp⟩ := List.any_eq_true.mp h2
      exact List.any_eq_true.mpr ⟨x, hperm.mem_iff.mpr hx, hxp⟩
  · rw [List.all_eq_true] at hal ⊢
    intro x hx
    exact hal x (hperm.mem_iff.mpr hx)

/-- After an `ok_if` has been recorded, reaching an `error_if` argument
fails with the source's mixing error (provided no further `ok_if` occurs
first and every `alerts` content is well-formed). -/
lemma parseArgsLoop_okIf_then_errorIf :
    ∀ (l : List (ArgSpec × Bool)) (args : Args) (e : Nat),
    args.ok_if = some e → args.error_if = none →
    (l.map Prod.fst).any ArgSpec.isOkIf = false →
    (l.map Prod.fst).any ArgSpec.isErrorIf = true →
    (l.map Prod.fst).all ArgSpec.entryOk = true →
    parseArgsLoop args (renderArgs l) =
      Except.error "cannot use both `ok_if` and `error_if`"
  | [], _, _, _, _, _, herr, _ => by simp at herr
  | (a, b) :: rest, args, e, hsome, hnone, hnook, herr, hal => by
    simp only [List.map_cons, List.any_cons, List.all_cons, Bool.and_eq_true]
      at hnook herr hal
    obtain ⟨hea, hal'⟩ := hal
    cases a with
    | trackConcurrency =>
      simp only [ArgSpec.isOkIf, ArgSpec.isErrorIf, Bool.false_or] at hnook herr
      have step := parseArgsLoop_okIf_then_errorIf rest
        { args with track_concurrency := true } e hsome hnone hnook herr hal'
      cases b <;>
        simpa [renderArgs, ArgSpec.render, parseArgsLoop_trackConcurrency,
          parseArgsLoop_comma] using step
    | okIf e2 => simp [ArgSpec.isOkIf] at hnook
    | errorIf e2 =>
      cases b <;>
        simp [renderArgs, ArgSpec.render, parseArgsLoop, hsome, hnone]
    | alertsArg c =>
      simp only [ArgSpec.isOkIf, ArgSpec.isErrorIf, Bool.false_or] at hnook herr
      simp only [ArgSpec.entryOk] at hea
      obtain ⟨al, hal0⟩ : ∃ al, parseAlertsLoop {} c = Except.ok al := by
        cases h : parseAlertsLoop {} c with
        | ok al => exact ⟨al, rfl⟩
        | error e2 => rw [h] at hea; simp at hea
      have step := parseArgsLoop_okIf_then_errorIf rest
        { args with alerts := some al } e hsome hnone hnook herr hal'
      cases b <;>
        (simp only [renderArgs, ArgSpec.render, List.cons_append, List.nil_append,
          List.append_assoc, if_true, if_false]
         rw [parseArgsLoop_alerts args c al hal0]
         simpa [parseArgsLoop_comma] using step)

/-- Mirror image of `parseArgsLoop_okIf_then_errorIf`: after an `error_if`
has been recorded, reaching an `ok_if` argument fails with the same error. -/
lemma parseArgsLoop_errorIf_then_okIf :
    ∀ (l : List (ArgSpec × Bool)) (args : Args) (e : Nat),
    args.error_if = some e → args.ok_if = none →
    (l.map Prod.fst).any ArgSpec.isErrorIf = false →
    (l.map Prod.fst).any ArgSpec.isOkIf = true →
    (l.map Prod.fst).all ArgSpec.entryOk = true →
    parseArgsLoop args (renderArgs l) =
      Except.error "cannot use both `ok_if` and `error_if`"
  | [], _, _, _, _, _, hok, _ => by simp at hok
  | (a, b) :: rest, args, e, hsome, hnone, hnoerr, hok, hal => by
    simp only [List.map_cons, List.any_cons, List.all_cons, Bool.and_eq_true]
      at hnoerr hok hal
    obtain ⟨hea, hal'⟩ := hal
    cases a with
    | trackConcurrency =>
      simp only [ArgSpec.isOkIf, ArgSpec.isErrorIf, Bool.false_or] at hnoerr hok
      have step := parseArgsLoop_errorIf_then_okIf rest
        { args with track_concurrency := true } e hsome hnone hnoerr hok hal'
      cases b <;>
        simpa [renderArgs, ArgSpec.render, parseArgsLoop_trackConcurrency,
          parseArgsLoop_comma] using step
    | errorIf e2 => simp [ArgSpec.isErrorIf] at hnoerr
    | okIf e2 =>
      cases b <;>
        simp [renderArgs, ArgSpec.render, parseArgsLoop, hsome, hnone]
    | alertsArg c =>
      simp only [ArgSpec.isOkIf, ArgSpec.isErrorIf, Bool.false_or] at hnoerr hok
      simp only [ArgSpec.entryOk] at hea
      obtain ⟨al, hal0⟩ : ∃ al, parseAlertsLoop {} c = Except.ok al := by
        cases h : parseAlertsLoop {} c with
        | ok al => exact ⟨al, rfl⟩
        | error e2 => rw [h] at hea; simp at hea
      have step := parseArgsLoop_errorIf_then_okIf rest
        { args with alerts := some al } e hsome hnone hnoerr hok hal'
      cases b <;>
        (simp only [renderArgs, ArgSpec.render, List.cons_append, List.nil_append,
          List.append_assoc, if_true, if_false]
         rw [parseArgsLoop_alerts args c al hal0]
         simpa [parseArgsLoop_comma] using step)

/-- An argument list with distinct keywords containing both an `ok_if` and
an `error_if` argument is rejected with the mixing error. -/
lemma parseArgsLoop_both_error :
    ∀ (l : List (ArgSpec × Bool)) (args : Args),
    args.ok_if = none → args.error_if = none →
    ((l.map Prod.fst).Pairwise fun a b => a.kind ≠ b.kind) →
    (l.map Prod.fst).any ArgSpec.isOkIf = true →
    (l.map Prod.fst).any ArgSpec.isErrorIf = true →
    (l.map Prod.fst).all ArgSpec.entryOk = true →
    parseArgsLoop args (renderArgs l) =
      Except.error "cannot use both `ok_if` and `error_if`"
  | [], _, _, _, _, hok, _, _ => by simp at hok
  | (a, b) :: rest, args, hoknone, herrnone, hdist, hok, herr, hal => by
    simp only [List.map_cons, List.pairwise_cons, List.any_cons, List.all_cons,
      Bool.and_eq_true] at hdist hok herr hal
    obtain ⟨hk, hdist'⟩ := hdist
    obtain ⟨hea, hal'⟩ := hal
    cases a with
    | trackConcurrency =>
      simp only [ArgSpec.isOkIf, ArgSpec.isErrorIf, Bool.false_or] at hok herr
      have step := parseArgsLoop_both_error rest { args with track_concurrency := true }
        hoknone herrnone hdist' hok herr hal'
      cases b <;>
        simpa [renderArgs, ArgSpec.render, parseArgsLoop_trackConcurrency,
          parseArgsLoop_comma] using step
    | okIf e =>
      simp only [ArgSpec.isOkIf, ArgSpec.isErrorIf, Bool.false_or] at herr
      have hnook : (rest.map Prod.fst).any ArgSpec.isOkIf = false := by
        rw [List.any_eq_false]
        intro x hx hxok
        exact hk x hx (isOkIf_kind hxok).symm
      have step := parseArgsLoop_okIf_then_errorIf rest { args with ok_if := some e } e
        rfl herrnone hnook herr hal'
      cases b <;>
        (simp only [renderArgs, ArgSpec.render, List.cons_append, List.nil_append,
          List.append_assoc, if_true, if_false]
         rw [parseArgsLoop_okIf args hoknone herrnone]
         simpa [parseArgsLoop_comma] using step)
    | errorIf e =>
      simp only [ArgSpec.isOkIf, ArgSpec.isErrorIf, Bool.false_or] at hok
      have hnoerr : (rest.map Prod.fst).any ArgSpec.isErrorIf = false := by
        rw [List.any_eq_false]
        intro x hx hxok
        exact hk x hx (isErrorIf_kind hxok).symm
      have step := parseArgsLoop_errorIf_then_okIf rest { args with error_if := some e } e
        rfl hoknone hnoerr hok hal'
      cases b <;>
        (simp only [renderArgs, ArgSpec.render, List.cons_append, List.nil_append,
          List.append_assoc, if_true, if_false]
         rw [parseArgsLoop_errorIf args herrnone hoknone]
         simpa [parseArgsLoop_comma] using step)
    | alertsArg c =>
      simp only [ArgSpec.isOkIf, ArgSpec.isErrorIf, Bool.false_or] at hok herr
      simp only [ArgSpec.entryOk] at hea
      obtain ⟨al, hal0⟩ : ∃ al, parseAlertsLoop {} c = Except.ok al := by
        cases h : parseAlertsLoop {} c with
        | ok al => exact ⟨al, rfl⟩
        | error e2 => rw [h] at hea; simp at hea
      have step := parseArgsLoop_both_error rest { args with alerts := some al }
        hoknone herrnone hdist' hok herr hal'
      cases b <;>
        (simp only [renderArgs, ArgSpec.render, List.cons_append, List.nil_append,
          List.append_assoc, if_true, if_false]
         rw [parseArgsLoop_alerts args c al hal0]
         simpa [parseArgsLoop_comma] using step)

/-! ## The claims -/

/-- C1: a tracker created by `OpenTelemetryTracker.start` with
`track_concurrency = true` and consumed by `finish` increments the
concurrency gauge by exactly 1 at start and decrements it by exactly 1 at
finish, both tagged with the same `{function, module}` labels — a net-zero
gauge change — and `finish` emits exactly one call-counter increment of 1
and exactly one histogram observation. -/
theorem c1_tracker_concurrency_net_zero (f m : String) (clabels : List Label)
    (t0 t1 : Rat) :
    gaugeAdds (OpenTelemetryTracker.start f m true t0).2 =
      [(1, [{ key := FUNCTION_KEY, value := f }, { key := MODULE_KEY, value := m }])] ∧
    gaugeAdds ((OpenTelemetryTracker.start f m true t0).1.finish clabels t1) =
      [(-1, [{ key := FUNCTION_KEY, value := f }, { key := MODULE_KEY, value := m }])] ∧
    gaugeDelta ((OpenTelemetryTracker.start f m true t0).2 ++
      (OpenTelemetryTracker.start f m true t0).1.finish clabels t1) = 0 ∧
    counterAdds ((OpenTelemetryTracker.start f m true t0).1.finish clabels t1) =
      [(1, clabels.map fun kv => { key := kv.1, value := kv.2 })] ∧
    histogramRecords ((OpenTelemetryTracker.start f m true t0).1.finish clabels t1) =
      [(t1 - t0, [{ key := FUNCTION_KEY, value := f }, { key := MODULE_KEY, value := m }])] := by
  simp [OpenTelemetryTracker.start, OpenTelemetryTracker.finish,
    gaugeAdds, counterAdds, histogramRecords, gaugeDelta]

/-- C2, counterexample: an `alerts(...)` argument containing two
`success_rate` entries is not rejected — the `Alerts::parse` loop has no
duplicate check, so the parse succeeds and the second entry overwrites
the first. -/
theorem c2_counterexample_duplicate_entries_accepted :
    Args.parseToks
      [Tok.kwAlerts, Tok.group
        [Tok.kwSuccessRate, Tok.eq, Tok.litInt 99 "", Tok.percent, Tok.comma,
         Tok.kwSuccessRate, Tok.eq, Tok.litInt 98 "", Tok.percent]] =
    Except.ok { alerts := some { success_rate := some (0.98 : Decimal) } } := by
  simp [Args.parseToks, parseArgsLoop, parseAlertsLoop, parseLit1, suffixToUnit, Except.map]
  norm_num

/-- C2, amended: each entry of the alerts sub-grammar is optional but may be
repeated; a duplicate `success_rate` or duplicate `latency` entry is accepted
and the last occurrence overwrites the earlier one. -/
theorem c2_amended_duplicates_last_wins (a b p q u v : Nat) :
    Args.parseToks
      [Tok.kwAlerts, Tok.group
        [Tok.kwSuccessRate, Tok.eq, Tok.litInt a "", Tok.percent, Tok.comma,
         Tok.kwSuccessRate, Tok.eq, Tok.litInt b "", Tok.percent]] =
      Except.ok { alerts := some { success_rate := some ((b : Decimal) / 100) } } ∧
    Args.parseToks
      [Tok.kwAlerts, Tok.group
        [Tok.kwLatency, Tok.group [Tok.litInt p "", Tok.percent, Tok.lt, Tok.litInt u "s"],
         Tok.comma,
         Tok.kwLatency, Tok.group [Tok.litInt q "", Tok.percent, Tok.lt, Tok.litInt v "s"]]] =
      Except.ok
        { alerts := some { latency := some (Latency.mk (v : Decimal) ((q : Decimal) / 100)) } } := by
  constructor <;>
    simp [Args.parseToks, parseArgsLoop, parseAlertsLoop, parseLatencyContent,
      parseIntOrFloat, parseLatencyCmp, latencyDone, parseLit1, suffixToUnit, Except.map]

/-- C3, counterexample: not every metric emission of a start/finish pair
carries the `{function, module}` call-site labels — the call counter is
tagged with exactly the caller-supplied labels, so with an empty outcome
label set the counter emission carries no labels at all. -/
theorem c3_counterexample_counter_lacks_call_site_labels :
    ¬ ∀ ev ∈ (OpenTelemetryTracker.start "f" "m" true 0).2 ++
        (OpenTelemetryTracker.start "f" "m" true 0).1.finish [] 1,
      carriesCallSite "f" "m" ev := by
  decide

/-- C3, amended: the latency-histogram and concurrency-gauge emissions carry
the `{function, module}` call-site labels, while the call-counter emission
carries exactly the caller-supplied outcome labels (the call site appears on
the counter only if the caller includes it among those labels). -/
theorem c3_amended_emission_labels (f m : String) (tc : Bool)
    (clabels : List Label) (t0 t1 : Rat) :
    counterAdds ((OpenTelemetryTracker.start f m tc t0).1.finish clabels t1) =
      [(1, clabels.map fun kv => { key := kv.1, value := kv.2 })] ∧
    histogramRecords ((OpenTelemetryTracker.start f m tc t0).2 ++
        (OpenTelemetryTracker.start f m tc t0).1.finish clabels t1) =
      [(t1 - t0, [{ key := FUNCTION_KEY, value := f }, { key := MODULE_KEY, value := m }])] ∧
    gaugeAdds ((OpenTelemetryTracker.start f m tc t0).2 ++
        (OpenTelemetryTracker.start f m tc t0).1.finish clabels t1) =
      (if tc then
        [(1, [{ key := FUNCTION_KEY, value := f }, { key := MODULE_KEY, value := m }]),
         (-1, [{ key := FUNCTION_KEY, value := f }, { key := MODULE_KEY, value := m }])]
       else []) := by
  cases tc <;>
    simp [OpenTelemetryTracker.start, OpenTelemetryTracker.finish,
      gaugeAdds, counterAdds, histogramRecords]

/-- C4, counterexample: a `latency(...)` target literal with the
unrecognized unit suffix `x` is rejected with the `IntOrFloat::parse`
lookahead error, not with the message `expected unit of time (s or ms)`
that the claim requires for every missing-or-unrecognized suffix. -/
theorem c4_counterexample_unrecognized_unit_message :
    parseLatencyContent
      [Tok.litInt 50 "", Tok.percent, Tok.lt, Tok.litInt 10 "x"] =
      Except.error intOrFloatLookaheadMsg ∧
    intOrFloatLookaheadMsg ≠ "expected unit of time (s or ms)" := by
  constructor
  · simp [parseLatencyContent, parseIntOrFloat, parseLatencyCmp, parseLit1,
      suffixToUnit, Except.map]
  · decide

/-- C4, amended: a `latency(...)` target literal with a missing unit suffix
fails with `expected unit of time (s or ms)`, while an unrecognized suffix
fails earlier, inside `IntOrFloat::parse`, with that parser's lookahead
error message instead. -/
theorem c4_amended_unit_error_messages (p n : Nat) (sfx : String)
    (h : suffixToUnit sfx = none) :
    parseLatencyContent [Tok.litInt p "", Tok.percent, Tok.lt, Tok.litInt n ""] =
      Except.error "expected unit of time (s or ms)" ∧
    parseLatencyContent [Tok.litInt p "", Tok.percent, Tok.lt, Tok.litInt n sfx] =
      Except.error intOrFloatLookaheadMsg := by
  refine ⟨?_, ?_⟩
  · simp [parseLatencyContent, parseIntOrFloat, parseLatencyCmp, parseLit1,
      suffixToUnit, Except.map]
  · have h0 : suffixToUnit "" = some none := rfl
    simp [parseLatencyContent, parseIntOrFloat, parseLatencyCmp, parseLit1,
      Except.map, h0, h]

/-- Witness for C4's amended theorem at `p = 50`, `n = 10`, `sfx = "x"`. -/
theorem c4_amended_unit_error_messages_witness :
    parseLatencyContent [Tok.litInt 50 "", Tok.percent, Tok.lt, Tok.litInt 10 ""] =
      Except.error "expected unit of time (s or ms)" ∧
    parseLatencyContent [Tok.litInt 50 "", Tok.percent, Tok.lt, Tok.litInt 10 "x"] =
      Except.error intOrFloatLookaheadMsg :=
  c4_amended_unit_error_messages 50 10 "x" (by decide)

/-- C5: parsing a valid argument list with distinct keyword arguments is
order-independent — rendering any permutation of the arguments, with commas
as optional separators chosen freely on each side, parses to the same `Args`
value. -/
theorem c5_args_parse_order_independent (l l' : List (ArgSpec × Bool))
    (hperm : (l.map Prod.fst).Perm (l'.map Prod.fst))
    (hv : ValidArgList (l.map Prod.fst)) :
    Args.parseToks (renderArgs l) = Args.parseToks (renderArgs l') := by
  obtain ⟨hdist, hnb, hal⟩ := hv
  obtain ⟨hdist', hnb', hal'⟩ := validArgList_perm hperm ⟨hdist, hnb, hal⟩
  unfold Args.parseToks
  rw [parseArgsLoop_renderArgs l {} hdist hnb hal (fun _ => ⟨rfl, rfl⟩) (fun _ => ⟨rfl, rfl⟩),
    parseArgsLoop_renderArgs l' {} hdist' hnb' hal' (fun _ => ⟨rfl, rfl⟩) (fun _ => ⟨rfl, rfl⟩)]
  congr 1
  exact hperm.foldl_eq'
    (fun x hx y hy z =>
      if hxy : x.kind = y.kind then by
        have hxe : x = y := by
          by_contra hne
          exact (hdist.forall (fun u v huv => Ne.symm huv) hx hy hne) hxy
        rw [hxe]
      else applyArg_comm x y hxy z) {}

/-- Witness for C5: `track_concurrency, ok_if = e` and
`ok_if = e, track_concurrency` parse to the same `Args`. -/
theorem c5_args_parse_order_independent_witness :
    Args.parseToks (renderArgs
      [(ArgSpec.trackConcurrency, true), (ArgSpec.okIf 0, false)]) =
    Args.parseToks (renderArgs
      [(ArgSpec.okIf 0, true), (ArgSpec.trackConcurrency, false)]) :=
  c5_args_parse_order_independent _ _
    (List.Perm.swap (ArgSpec.okIf 0) ArgSpec.trackConcurrency [])
    ⟨by simp [ArgSpec.kind], by simp [ArgSpec.isOkIf, ArgSpec.isErrorIf], rfl⟩

/-- C6: `alerts(success_rate = 99.9%)` parses to the exact success-rate
fraction `0.999`: the percent literal `99.9` (decimal value `999/10`) is
divided by 100 in exact (rational-valued) decimal arithmetic, with no
binary floating-point rounding anywhere in the computation. -/
theorem c6_success_rate_exact_decimal :
    Args.parseToks
      [Tok.kwAlerts, Tok.group
        [Tok.kwSuccessRate, Tok.eq, Tok.litFloat 999 1 "", Tok.percent]] =
    Except.ok { alerts := some { success_rate := some (0.999 : Decimal) } } := by
  simp [Args.parseToks, parseArgsLoop, parseAlertsLoop, parseLit1, suffixToUnit, Except.map]
  norm_num

/-- C7: `alerts(latency(99% < 200ms))` parses to exactly
`{percentile := 0.99, target_seconds := 0.2}` — the percentile literal is
divided by 100 and the millisecond-suffixed target is divided by 1000. -/
theorem c7_latency_percent_and_ms_normalized :
    Args.parseToks
      [Tok.kwAlerts, Tok.group
        [Tok.kwLatency, Tok.group
          [Tok.litInt 99 "", Tok.percent, Tok.lt, Tok.litInt 200 "ms"]]] =
    Except.ok
      { alerts := some { latency := some (Latency.mk (0.2 : Decimal) (0.99 : Decimal)) } } := by
  simp [Args.parseToks, parseArgsLoop, parseAlertsLoop, parseLatencyContent,
    parseIntOrFloat, parseLatencyCmp, latencyDone, parseLit1, suffixToUnit, Except.map]
  norm_num

/-- C8: any argument list with distinct keywords containing both an `ok_if`
and an `error_if` argument — in either order, since every such list is
covered — fails to parse with the error
`cannot use both (ok_if) and (error_if)` (written with backticks in the
source message). -/
theorem c8_ok_if_error_if_conflict_rejected (l : List (ArgSpec × Bool))
    (hdist : (l.map Prod.fst).Pairwise fun a b => a.kind ≠ b.kind)
    (hok : (l.map Prod.fst).any ArgSpec.isOkIf = true)
    (herr : (l.map Prod.fst).any ArgSpec.isErrorIf = true)
    (hal : (l.map Prod.fst).all ArgSpec.entryOk = true) :
    Args.parseToks (renderArgs l) =
      Except.error "cannot use both `ok_if` and `error_if`" :=
  parseArgsLoop_both_error l {} rfl rfl hdist hok herr hal

/-- Witness for C8: `ok_if = a, error_if = b` is rejected with the mixing
error. -/
theorem c8_ok_if_error_if_conflict_rejected_witness :
    Args.parseToks (renderArgs [(ArgSpec.okIf 0, false), (ArgSpec.errorIf 1, false)]) =
      Except.error "cannot use both `ok_if` and `error_if`" :=
  c8_ok_if_error_if_conflict_rejected
    [(ArgSpec.okIf 0, false), (ArgSpec.errorIf 1, false)]
    (by simp [ArgSpec.kind]) rfl rfl rfl

/-- C9: the three comparators `<`, `<=`, `=` of the `latency(...)` grammar
are all accepted and treated identically — for otherwise-identical token
streams the parse result does not depend on which comparator appears. -/
theorem c9_latency_comparators_equivalent (t : Tok) (post outer : List Tok)
    (cmp1 cmp2 : Tok)
    (h1 : cmp1 = Tok.lt ∨ cmp1 = Tok.le ∨ cmp1 = Tok.eq)
    (h2 : cmp2 = Tok.lt ∨ cmp2 = Tok.le ∨ cmp2 = Tok.eq) :
    parseLatencyToks
      (Tok.kwLatency :: Tok.group (t :: Tok.percent :: cmp1 :: post) :: outer) =
    parseLatencyToks
      (Tok.kwLatency :: Tok.group (t :: Tok.percent :: cmp2 :: post) :: outer) := by
  rcases h1 with h1 | h1 | h1 <;> rcases h2 with h2 | h2 | h2 <;> subst h1 <;> subst h2 <;>
    cases hp : parseLit1 t <;>
      simp [parseLatencyToks, parseLatencyContent, parseIntOrFloat, parseLatencyCmp,
        Except.map, hp]

/-- Witness for C9: `latency(99% < 200ms)` and `latency(99% <= 200ms)`
parse identically. -/
theorem c9_latency_comparators_equivalent_witness :
    parseLatencyToks [Tok.kwLatency,
      Tok.group [Tok.litInt 99 "", Tok.percent, Tok.lt, Tok.litInt 200 "ms"]] =
    parseLatencyToks [Tok.kwLatency,
      Tok.group [Tok.litInt 99 "", Tok.percent, Tok.le, Tok.litInt 200 "ms"]] :=
  c9_latency_comparators_equivalent (Tok.litInt 99 "") [Tok.litInt 200 "ms"] []
    Tok.lt Tok.le (Or.inl rfl) (Or.inr (Or.inl rfl))

/-- C10: parsing an empty attribute-argument stream succeeds and returns
the default `Args`: `track_concurrency = false`, no `ok_if`, no `error_if`
and no alerts. -/
theorem c10_empty_args_parse_default :
    Args.parseToks [] = Except.ok
      { track_concurrency := false, ok_if := none, error_if := none, alerts := none } :=
  rfl

end Autometrics
